import Mathlib

/-!
Verification of the registration endpoint of the Rust_Server repository.

The embedded code is `src/main.rs` (handler `register_user`, structs
`Claims`, `RegisterRequest`, `RegisterResponse`, constant `JWT_SECRET`)
and `src/database.rs` (the MongoDB collection it obtains, which is created
without any index beyond the implicit `_id` one).

Modelling decisions, each tied to a line of the source:

* `bcrypt::hash(&user.password, DEFAULT_COST)` (main.rs line 38) is a
  salted, fallible external call; it is passed in as an oracle
  `hashFn : String → Option String` (`none` models `Err`).
* `collection.insert_one(new_user, None)` (main.rs line 47) appends one
  document.  It fails on a transient store error (`insertErr`), and —
  only when the server-side collection carries a unique index on `email`,
  which `database.rs` never creates — on a duplicate email
  (`uniqueIndex`).
* every `.unwrap()` on an `Err` aborts the process; the model records
  this as the outcome `Outcome.crash`.  The Rust handler's return type is
  `Result<impl Reply, Infallible>`, so a crash is its only non-success
  path.
* `(Utc::now() + Duration::hours(24)).timestamp() as usize`
  (main.rs lines 51 and 54): chrono timestamps are leap-second-free
  seconds, so the sum is `now + 86400`; the `as usize` cast wraps modulo
  2^64.
* `jsonwebtoken::encode` / the matching decode are external library
  calls, modelled symbolically: the compact JWS encoding is bijective, so
  a token is represented by its decoded content (header, payload,
  signature), with the signature a deterministic MAC over key, header
  and payload.  With algorithm HS256 and these claims the library encode
  cannot fail, so the model is total.
-/

namespace RustServer

/-- Struct `models::User` as constructed at main.rs lines 41-44
(`email`, `password`); the declaring file `src/models.rs` is not in the
sources, but the construction site fixes its fields. -/
structure User where
  email : String
  password : String
deriving DecidableEq, Repr

/-- Struct `RegisterRequest` (main.rs lines 19-23). -/
structure RegisterRequest where
  email : String
  password : String
deriving DecidableEq, Repr

/-- Struct `Claims` (main.rs lines 13-17): exactly the two fields
`email : String` and `exp : usize`. -/
structure Claims where
  email : String
  exp : Nat
deriving DecidableEq, Repr

/-- Serialization of `Claims` under `derive(Serialize)`: a JSON object
whose keys are the field names in declaration order. -/
def Claims.serialize (c : Claims) : List (String × String) :=
  [("email", c.email), ("exp", toString c.exp)]

/-- Signing algorithms in scope; `jsonwebtoken::Header::default()` uses
HS256. -/
inductive Alg where
  | HS256
deriving DecidableEq, Repr

/-- JWT header; only the algorithm field matters here. -/
structure Header where
  alg : Alg
deriving DecidableEq, Repr

/-- Model of `jsonwebtoken::Header::default()`: algorithm HS256. -/
def headerDefault : Header := ⟨Alg.HS256⟩

/-- The constant `JWT_SECRET` (main.rs line 31): the byte string
b"your_secret_key", compiled into the binary. -/
def JWT_SECRET : String := "your_secret_key"

/-- Symbolic MAC of the modelled signing primitive: a deterministic
function of the key, the header algorithm and the payload.  Any
deterministic function sound for this purpose; decode only compares
signatures for equality. -/
def macSig (key : String) (h : Header) (c : Claims) : String :=
  match h.alg with
  | Alg.HS256 => key ++ "|HS256|" ++ c.email ++ "|" ++ toString c.exp

/-- Model of the compact JWS token.  The base64 segment encoding is
bijective, so the token is represented by its decoded content. -/
structure Token where
  header : Header
  payload : Claims
  sig : String
deriving DecidableEq, Repr

/-- Model of `jsonwebtoken::encode(&header, &claims, &EncodingKey::from_secret(key))`:
signs header and claims with the key. -/
def encode (h : Header) (c : Claims) (key : String) : Token :=
  ⟨h, c, macSig key h c⟩

/-- Model of decoding a token while validating the signature with the
given secret: returns the claims exactly when the signature verifies. -/
def decodeTok (t : Token) (key : String) : Option Claims :=
  if t.sig = macSig key t.header t.payload then some t.payload else none

/-- The MongoDB collection "users" (database.rs): a sequence of
persisted documents. -/
structure Store where
  docs : List User
deriving DecidableEq, Repr

/-- Whether the collection already holds a document with this email. -/
def Store.containsEmail (s : Store) (e : String) : Bool :=
  s.docs.any (fun u => u.email == e)

/-- Model of `collection.insert_one(new_user, None)` (main.rs line 47):
appends the document; `none` models `Err`, which arises on a transient
store failure (`insertErr`) or on a duplicate key when the server-side
collection has a unique index on `email` (`uniqueIndex`) — an index this
repository never creates (database.rs configures none). -/
def insertOne (s : Store) (u : User) (insertErr uniqueIndex : Bool) :
    Option Store :=
  if insertErr then none
  else if uniqueIndex && s.containsEmail u.email then none
  else some ⟨s.docs ++ [u]⟩

/-- Observable result of one invocation of `register_user`: either the
JSON reply carrying the token (main.rs line 58), or a process abort from
an `.unwrap()` on an `Err` (main.rs lines 38, 47, 56). -/
inductive Outcome where
  | reply (token : Token)
  | crash
deriving DecidableEq, Repr

/-- The `exp` claim (main.rs lines 51 and 54):
`(Utc::now() + Duration::hours(24)).timestamp() as usize`, i.e.
`now + 86400` seconds wrapped modulo 2^64 by the `as usize` cast. -/
def expStamp (now : Int) : Nat := ((now + 86400) % (2 ^ 64)).toNat

/-- The handler `register_user` (main.rs lines 33-58), embedded over the
oracles described in the file header.  `now` is
`Utc::now().timestamp()` at the moment of token creation. -/
def register_user (user : RegisterRequest) (store : Store)
    (hashFn : String → Option String) (insertErr uniqueIndex : Bool)
    (now : Int) : Outcome × Store :=
  match hashFn user.password with
  | none => (Outcome.crash, store)
  | some hashed_password =>
    let new_user : User := ⟨user.email, hashed_password⟩
    match insertOne store new_user insertErr uniqueIndex with
    | none => (Outcome.crash, store)
    | some store2 =>
      let claims : Claims := ⟨user.email, expStamp now⟩
      let token := encode headerDefault claims JWT_SECRET
      (Outcome.reply token, store2)

/-- A concrete instantiation of the bcrypt oracle, used only to evaluate
the handler at concrete inputs: deterministic stand-in producing a
bcrypt-shaped string distinct from the plaintext. -/
def hashOracle (p : String) : Option String := some ("$2b$12$" ++ p)

/-- Modelled from the spec: the case normalization the spec requires of
the stored email key ("email: string (unique key, case-normalized)").
No such operation exists in the source; this definition follows the
spec's words (ASCII lower-casing) so it can be compared with what the
code stores. -/
def specCaseNormalize (e : String) : String :=
  String.mk (e.data.map (fun c =>
    if c.val ≥ 65 && c.val ≤ 90 then Char.ofNat (c.toNat + 32) else c))

/-- Exhaustive description of one run of the handler: either the hash
succeeded and the insert succeeded, the new document was appended and
the reply carries the token signed over the request email, or some
unwrap hit an error and the process crashed with the store unchanged. -/
theorem register_user_cases (user : RegisterRequest) (store : Store)
    (hashFn : String → Option String) (insertErr uniqueIndex : Bool) (now : Int) :
    (∃ h, hashFn user.password = some h ∧
        insertOne store ⟨user.email, h⟩ insertErr uniqueIndex =
          some ⟨store.docs ++ [⟨user.email, h⟩]⟩ ∧
        register_user user store hashFn insertErr uniqueIndex now =
          (Outcome.reply (encode headerDefault ⟨user.email, expStamp now⟩ JWT_SECRET),
           ⟨store.docs ++ [⟨user.email, h⟩]⟩)) ∨
    register_user user store hashFn insertErr uniqueIndex now = (Outcome.crash, store) := by
  unfold register_user
  cases hh : hashFn user.password with
  | none => right; rfl
  | some h =>
    cases hi : insertOne store ⟨user.email, h⟩ insertErr uniqueIndex with
    | none => right; simp only [hi]
    | some s2 =>
      have hs2 : s2 = ⟨store.docs ++ [⟨user.email, h⟩]⟩ := by
        unfold insertOne at hi
        split at hi
        · cases hi
        · split at hi
          · cases hi
          · cases hi; rfl
      subst hs2
      refine Or.inl ⟨h, rfl, hi, ?_⟩
      simp only [hi]

/-- C1: the claim says a registration whose email already exists fails
with EmailAlreadyRegistered, issues no token, and leaves the record
unchanged.  The code has no such response: at the failing input (a
request for "a@b.com" against a store already holding "a@b.com"), with
the collection as database.rs creates it (no unique index) the handler
issues a token and appends a duplicate document, and with a server-side
unique index the insert unwrap aborts the process. -/
theorem c1_code_behavior_on_existing_email :
    (register_user ⟨"a@b.com", "pw"⟩ ⟨[⟨"a@b.com", "oldhash"⟩]⟩ hashOracle false false 1700000000
      = (Outcome.reply (encode headerDefault ⟨"a@b.com", 1700086400⟩ JWT_SECRET),
         ⟨[⟨"a@b.com", "oldhash"⟩, ⟨"a@b.com", "$2b$12$pw"⟩]⟩)) ∧
    (register_user ⟨"a@b.com", "pw"⟩ ⟨[⟨"a@b.com", "oldhash"⟩]⟩ hashOracle false true 1700000000
      = (Outcome.crash, ⟨[⟨"a@b.com", "oldhash"⟩]⟩)) := by
  exact ⟨by decide, by decide⟩

/-- C2: the claim says a failing hash or a failing insert yields a typed
opaque InternalError response instead of crashing the process.  The code
unwraps both results: on a hash error and on an insert error the process
aborts (Outcome.crash); no error response of any kind exists in the
handler. -/
theorem c2_code_crashes_instead_of_internal_error :
    ((register_user ⟨"a@b.com", "pw"⟩ ⟨[]⟩ (fun _ => none) false false 0).1 = Outcome.crash) ∧
    ((register_user ⟨"a@b.com", "pw"⟩ ⟨[]⟩ hashOracle true false 0).1 = Outcome.crash) := by
  exact ⟨rfl, rfl⟩

/-- C3: the claim says an empty or malformed email, or a too-short
password, is rejected with InvalidInput before any hash or store work.
The code performs no validation: for the empty email and the one-letter
password the handler hashes the password (the stored document carries
the hasher's output), writes the document to the store, and replies
with a token. -/
theorem c3_code_accepts_invalid_input :
    register_user ⟨"", "x"⟩ ⟨[]⟩ hashOracle false false 0
      = (Outcome.reply (encode headerDefault ⟨"", 86400⟩ JWT_SECRET),
         ⟨[⟨"", "$2b$12$x"⟩]⟩) := by
  decide

/-- C4: persist and token issuance are atomic from the caller's
perspective: whenever the handler crashes (its only failure mode) the
store is unchanged and no token exists, and whenever a token is replied
the insert of the new document succeeded and produced exactly the final
store. -/
theorem c4_persist_token_atomic (user : RegisterRequest) (store : Store)
    (hashFn : String → Option String) (insertErr uniqueIndex : Bool) (now : Int) :
    ((register_user user store hashFn insertErr uniqueIndex now).1 = Outcome.crash →
      (register_user user store hashFn insertErr uniqueIndex now).2 = store) ∧
    (∀ t, (register_user user store hashFn insertErr uniqueIndex now).1 = Outcome.reply t →
      ∀ h, hashFn user.password = some h →
        insertOne store ⟨user.email, h⟩ insertErr uniqueIndex =
          some (register_user user store hashFn insertErr uniqueIndex now).2) := by
  rcases register_user_cases user store hashFn insertErr uniqueIndex now with
    ⟨h, hh, hi, heq⟩ | heq
  · constructor
    · intro hc; rw [heq] at hc; cases hc
    · intro t _ h3 hh3
      rw [hh] at hh3
      injection hh3 with e
      subst e
      rw [heq]
      exact hi
  · constructor
    · intro _; rw [heq]
    · intro t hc; rw [heq] at hc; cases hc

/-- Witness for c4_persist_token_atomic at a concrete successful run. -/
theorem c4_persist_token_atomic_witness :
    insertOne ⟨[]⟩ ⟨"a@b.com", "$2b$12$pw"⟩ false false =
      some (register_user ⟨"a@b.com", "pw"⟩ ⟨[]⟩ hashOracle false false 0).2 :=
  (c4_persist_token_atomic ⟨"a@b.com", "pw"⟩ ⟨[]⟩ hashOracle false false 0).2
    (encode headerDefault ⟨"a@b.com", expStamp 0⟩ JWT_SECRET) rfl "$2b$12$pw" rfl

/-- C5: for every registration that succeeds, the claimed subject inside
the signed token (the email claim of its payload) equals the email of
the request. -/
theorem c5_token_subject_equals_request_email (user : RegisterRequest) (store : Store)
    (hashFn : String → Option String) (insertErr uniqueIndex : Bool) (now : Int)
    (t : Token)
    (hs : (register_user user store hashFn insertErr uniqueIndex now).1 = Outcome.reply t) :
    t.payload.email = user.email := by
  rcases register_user_cases user store hashFn insertErr uniqueIndex now with
    ⟨h, _, _, heq⟩ | heq
  · rw [heq] at hs
    simp only at hs
    cases hs
    rfl
  · rw [heq] at hs; cases hs

/-- Witness for c5_token_subject_equals_request_email at a concrete
successful run. -/
theorem c5_token_subject_witness :
    (encode headerDefault ⟨"a@b.com", expStamp 0⟩ JWT_SECRET).payload.email = "a@b.com" :=
  c5_token_subject_equals_request_email ⟨"a@b.com", "pw"⟩ ⟨[]⟩ hashOracle false false 0
    (encode headerDefault ⟨"a@b.com", expStamp 0⟩ JWT_SECRET) rfl

/-- C6 counterexample: the claim says every issued token carries a claim
issued_at equal to the issuance time.  At a concrete successful
registration the issued token's claims serialize to the two keys email
and exp only: no issued_at (and no iat) claim exists. -/
theorem c6_counterexample_no_issued_at :
    ((register_user ⟨"a@b.com", "pw"⟩ ⟨[]⟩ hashOracle false false 1700000000).1
      = Outcome.reply (encode headerDefault ⟨"a@b.com", 1700086400⟩ JWT_SECRET)) ∧
    (Claims.serialize ⟨"a@b.com", 1700086400⟩).lookup "issued_at" = none ∧
    (Claims.serialize ⟨"a@b.com", 1700086400⟩).lookup "iat" = none := by
  exact ⟨by decide, by decide, by decide⟩

/-- C6 (amended): every issued token carries exactly the claims email
and exp, with no issued_at claim; exp equals the issuance time plus 24
hours (in seconds, wrapped by the usize cast), so for any realistic
non-negative, non-wrapping issuance time the expiry instant is strictly
after the issuance instant. -/
theorem c6_exp_is_issuance_plus_24h (user : RegisterRequest) (store : Store)
    (hashFn : String → Option String) (insertErr uniqueIndex : Bool) (now : Int)
    (t : Token) (hnow : 0 ≤ now) (hbound : now + 86400 < 2 ^ 64)
    (hs : (register_user user store hashFn insertErr uniqueIndex now).1 = Outcome.reply t) :
    t.payload = ⟨user.email, expStamp now⟩ ∧
    (Claims.serialize t.payload).lookup "issued_at" = none ∧
    (expStamp now : Int) = now + 86400 ∧
    now < (expStamp now : Int) := by
  have hnn : (0 : Int) ≤ now + 86400 := by omega
  have hemod : (now + 86400) % ((2 : Int) ^ 64) = now + 86400 :=
    Int.emod_eq_of_lt hnn hbound
  have hcast : (expStamp now : Int) = now + 86400 := by
    unfold expStamp
    rw [hemod, Int.toNat_of_nonneg hnn]
  have hpay : t.payload = ⟨user.email, expStamp now⟩ := by
    rcases register_user_cases user store hashFn insertErr uniqueIndex now with
      ⟨h, _, _, heq⟩ | heq
    · rw [heq] at hs
      simp only at hs
      cases hs
      rfl
    · rw [heq] at hs; cases hs
  refine ⟨hpay, ?_, hcast, by omega⟩
  rw [hpay]
  rfl

/-- Witness for c6_exp_is_issuance_plus_24h at a concrete successful
run. -/
theorem c6_exp_witness :
    (encode headerDefault ⟨"a@b.com", expStamp 1700000000⟩ JWT_SECRET).payload
      = ⟨"a@b.com", expStamp 1700000000⟩ ∧
    (Claims.serialize
        (encode headerDefault ⟨"a@b.com", expStamp 1700000000⟩ JWT_SECRET).payload).lookup
        "issued_at" = none ∧
    (expStamp 1700000000 : Int) = 1700000000 + 86400 ∧
    (1700000000 : Int) < (expStamp 1700000000 : Int) :=
  c6_exp_is_issuance_plus_24h ⟨"a@b.com", "pw"⟩ ⟨[]⟩ hashOracle false false 1700000000
    (encode headerDefault ⟨"a@b.com", expStamp 1700000000⟩ JWT_SECRET)
    (by norm_num) (by norm_num) rfl

/-- C7: the plaintext password is never persisted: any document the
handler adds to the store carries, in its password field, exactly the
credential hasher's output for the request password, which (as for any
bcrypt-shaped output) differs from the plaintext. -/
theorem c7_stored_password_is_hash_output (user : RegisterRequest) (store : Store)
    (hashFn : String → Option String) (insertErr uniqueIndex : Bool) (now : Int)
    (h : String) (hh : hashFn user.password = some h) (hne : h ≠ user.password) :
    ∀ u : User, u ∈ (register_user user store hashFn insertErr uniqueIndex now).2.docs →
      u ∉ store.docs → u.password = h ∧ u.password ≠ user.password := by
  rcases register_user_cases user store hashFn insertErr uniqueIndex now with
    ⟨h2, hh2, hi, heq⟩ | heq
  · rw [hh] at hh2
    injection hh2 with e
    subst e
    intro u hu hnotold
    rw [heq] at hu
    simp only at hu
    rcases List.mem_append.mp hu with hold | hnew
    · exact absurd hold hnotold
    · have : u = ⟨user.email, h⟩ := List.mem_singleton.mp hnew
      subst this
      exact ⟨rfl, hne⟩
  · intro u hu hnotold
    rw [heq] at hu
    exact absurd hu hnotold

/-- Witness for c7_stored_password_is_hash_output at the document
created by a concrete successful run. -/
theorem c7_stored_password_witness :
    (⟨"a@b.com", "$2b$12$pw"⟩ : User).password = "$2b$12$pw" ∧
    (⟨"a@b.com", "$2b$12$pw"⟩ : User).password ≠ "pw" :=
  c7_stored_password_is_hash_output ⟨"a@b.com", "pw"⟩ ⟨[]⟩ hashOracle false false 0
    "$2b$12$pw" rfl (by decide) ⟨"a@b.com", "$2b$12$pw"⟩ (by decide) (by decide)

/-- C8 counterexample: the claim says the stored email is the
case-normalized form of the request email, so that case variants key
the same record.  Registering "A@B.com" stores "A@B.com" verbatim,
which is not case-normalized; and a later registration of "a@b.com"
creates a second, distinct document even when the collection enforces a
unique index on email (the two spellings are different keys). -/
theorem c8_counterexample_no_case_normalization :
    ((register_user ⟨"A@B.com", "pw"⟩ ⟨[]⟩ hashOracle false false 0).2
      = ⟨[⟨"A@B.com", "$2b$12$pw"⟩]⟩) ∧
    specCaseNormalize "A@B.com" ≠ "A@B.com" ∧
    ((register_user ⟨"a@b.com", "pw"⟩ ⟨[⟨"A@B.com", "$2b$12$pw"⟩]⟩ hashOracle false true 0).2
      = ⟨[⟨"A@B.com", "$2b$12$pw"⟩, ⟨"a@b.com", "$2b$12$pw"⟩]⟩) := by
  exact ⟨by decide, by decide, by decide⟩

/-- C8 (amended): the handler stores the request email exactly as sent,
with no case normalization; emails differing only in case are distinct
keys and create distinct records. -/
theorem c8_email_stored_verbatim (user : RegisterRequest) (store : Store)
    (hashFn : String → Option String) (insertErr uniqueIndex : Bool) (now : Int)
    (t : Token) (h : String) (hh : hashFn user.password = some h)
    (hs : (register_user user store hashFn insertErr uniqueIndex now).1 = Outcome.reply t) :
    (register_user user store hashFn insertErr uniqueIndex now).2.docs
      = store.docs ++ [⟨user.email, h⟩] := by
  rcases register_user_cases user store hashFn insertErr uniqueIndex now with
    ⟨h2, hh2, hi, heq⟩ | heq
  · rw [hh] at hh2
    injection hh2 with e
    subst e
    rw [heq]
  · rw [heq] at hs; cases hs

/-- Witness for c8_email_stored_verbatim at a concrete successful run
with a mixed-case email. -/
theorem c8_email_stored_verbatim_witness :
    (register_user ⟨"A@B.com", "pw"⟩ ⟨[]⟩ hashOracle false false 0).2.docs
      = (Store.mk []).docs ++ [⟨"A@B.com", "$2b$12$pw"⟩] :=
  c8_email_stored_verbatim ⟨"A@B.com", "pw"⟩ ⟨[]⟩ hashOracle false false 0
    (encode headerDefault ⟨"A@B.com", expStamp 0⟩ JWT_SECRET) "$2b$12$pw" rfl rfl

/-- C9: the claim says that of N simultaneous registrations with one
email exactly one succeeds and the rest fail with EmailAlreadyRegistered.
Evaluating the code on two back-to-back registrations of the same email
(one admissible interleaving of two simultaneous requests): with the
collection as database.rs creates it (no unique index) both succeed and
two documents for the email end up stored; with a server-side unique
index the second attempt aborts the process.  Neither run produces an
EmailAlreadyRegistered failure, which the handler cannot emit at all. -/
theorem c9_duplicate_registrations_both_succeed :
    ((register_user ⟨"a@b.com", "pw"⟩ ⟨[]⟩ hashOracle false false 0).1
      = Outcome.reply (encode headerDefault ⟨"a@b.com", 86400⟩ JWT_SECRET)) ∧
    ((register_user ⟨"a@b.com", "pw"⟩
        (register_user ⟨"a@b.com", "pw"⟩ ⟨[]⟩ hashOracle false false 0).2
        hashOracle false false 0).1
      = Outcome.reply (encode headerDefault ⟨"a@b.com", 86400⟩ JWT_SECRET)) ∧
    ((register_user ⟨"a@b.com", "pw"⟩
        (register_user ⟨"a@b.com", "pw"⟩ ⟨[]⟩ hashOracle false false 0).2
        hashOracle false false 0).2
      = ⟨[⟨"a@b.com", "$2b$12$pw"⟩, ⟨"a@b.com", "$2b$12$pw"⟩]⟩) ∧
    ((register_user ⟨"a@b.com", "pw"⟩
        (register_user ⟨"a@b.com", "pw"⟩ ⟨[]⟩ hashOracle false false 0).2
        hashOracle false true 0).1
      = Outcome.crash) := by
  exact ⟨by decide, by decide, by decide, by decide⟩

/-- C10: every token a successful registration replies with is signed
over the constant secret JWT_SECRET with the default header (HS256), so
decoding it with that same constant secret succeeds and recovers
exactly the encoded claims: email of the request and the computed exp. -/
theorem c10_decode_roundtrip_with_constant_secret (user : RegisterRequest) (store : Store)
    (hashFn : String → Option String) (insertErr uniqueIndex : Bool) (now : Int)
    (t : Token)
    (hs : (register_user user store hashFn insertErr uniqueIndex now).1 = Outcome.reply t) :
    t.header = headerDefault ∧
    decodeTok t JWT_SECRET = some ⟨user.email, expStamp now⟩ := by
  rcases register_user_cases user store hashFn insertErr uniqueIndex now with
    ⟨h, _, _, heq⟩ | heq
  · rw [heq] at hs
    simp only at hs
    cases hs
    exact ⟨rfl, by simp [decodeTok, encode]⟩
  · rw [heq] at hs; cases hs

/-- Witness for c10_decode_roundtrip_with_constant_secret at a concrete
successful run. -/
theorem c10_decode_roundtrip_witness :
    (encode headerDefault ⟨"a@b.com", expStamp 0⟩ JWT_SECRET).header = headerDefault ∧
    decodeTok (encode headerDefault ⟨"a@b.com", expStamp 0⟩ JWT_SECRET) JWT_SECRET
      = some ⟨"a@b.com", expStamp 0⟩ :=
  c10_decode_roundtrip_with_constant_secret ⟨"a@b.com", "pw"⟩ ⟨[]⟩ hashOracle false false 0
    (encode headerDefault ⟨"a@b.com", expStamp 0⟩ JWT_SECRET) rfl

end RustServer
